import Mathlib

/-
Shallow embedding of the upload / analysis / CSV-export workflow of
src/src/pages/Index.tsx (the single source file of the repository).

The page is a UI state machine.  We embed its state hooks as a record
`AppState`, and each handler (`onDrop`, `removeImage`, `clearImages`,
`analyzeImages`, `exportToCSV`) as a pure function on that record.
Nondeterministic environment inputs (the random identifiers from
Math.random and the object URLs from URL.createObjectURL) are passed in
as explicit parameters.  Blocking `alert` dialogs are returned as an
`Option Alert` value, using the error taxonomy of the specification
(MissingCredential, EmptyInput, MissingDestination).
-/

namespace ImageApp

/-- A browser `File` handle: the fields of the DOM File object that the
page reads (`file.name`, `file.size` in bytes, `file.type` the declared
MIME type). -/
structure File where
  name : String
  size : Nat
  type : String
deriving DecidableEq

/-- The `status` field of an `AnalysisResult`
(`'pending' | 'processing' | 'completed' | 'error'`). -/
inductive Status where
  | pending
  | processing
  | completed
  | error
deriving DecidableEq

/-- The `ImageFile` record built by `onDrop` (Index.tsx lines 13-19):
id, the file handle, display name, human-readable size label, and an
optional preview object URL. -/
structure ImageFile where
  id : String
  file : File
  name : String
  size : String
  preview : Option String
deriving DecidableEq

/-- The `AnalysisResult` record (Index.tsx lines 21-27).  `description`
is an optional field (`description?: string`). -/
structure AnalysisResult where
  filename : String
  title : String
  description : Option String
  keywords : String
  status : Status
deriving DecidableEq

/-- The user-facing blocking alerts raised by the handlers, named after
the error taxonomy of the specification: MissingCredential is the
"Пожалуйста, введите API ключ" alert, EmptyInput is the
"Пожалуйста, загрузите изображения" alert, MissingDestination is the
"Пожалуйста, введите URL Google Таблицы" alert. -/
inductive Alert where
  | missingCredential
  | emptyInput
  | missingDestination
deriving DecidableEq

/-- The component state: one field per useState hook of Index.tsx
(lines 30-38).  `progress` is a rational since the source assigns the
fractional value (i / images.length) * 100 during a run. -/
structure AppState where
  apiKey : String
  model : String
  images : List ImageFile
  useFilename : Bool
  includeDescription : Bool
  results : List AnalysisResult
  isProcessing : Bool
  progress : ℚ
  googleSheetsUrl : String
deriving DecidableEq

/-- Character-list core of `jsTrim`: drop whitespace characters from
both ends. -/
def trimChars (cs : List Char) : List Char :=
  ((cs.dropWhile Char.isWhitespace).reverse.dropWhile Char.isWhitespace).reverse

/-- The JavaScript `String.prototype.trim()` used by the API-key guard
(Index.tsx line 67): removes leading and trailing whitespace.  Defined
on the character list so that it evaluates by kernel reduction (the
built-in `String.trim` recurses on byte positions and does not). -/
def jsTrim (s : String) : String :=
  ⟨trimChars s.data⟩

/-- Character-list core of `jsStartsWith`: the second list begins the
first. -/
def charsStartWith : List Char → List Char → Bool
  | _, [] => true
  | [], _ :: _ => false
  | a :: as, b :: bs => a == b && charsStartWith as bs

/-- The JavaScript `String.prototype.startsWith` used by the preview
test (Index.tsx line 46), defined on the character list so that it
evaluates by kernel reduction. -/
def jsStartsWith (s pre : String) : Bool :=
  charsStartWith s.data pre.data

/-- The size label `(file.size / 1024 / 1024).toFixed(2) + " MB"`
(Index.tsx line 45).  For byte counts below 2^53 the JavaScript double
division by 1024 twice is the exact rational size / 2^20, and
`toFixed(2)` rounds it to the nearest hundredth with ties rounded up
(the ECMAScript "pick the larger n" rule); we compute that rounding
exactly on naturals: round-half-up of (bytes * 100) / 2^20 is
(bytes * 100 + 2^19) / 2^20 in integer division. -/
def sizeLabel (bytes : Nat) : String :=
  let scaled : Nat := (bytes * 100 + 524288) / 1048576
  let whole : Nat := scaled / 100
  let frac : Nat := scaled % 100
  toString whole ++ "." ++ (if frac < 10 then "0" ++ toString frac else toString frac) ++ " MB"

/-- One intake record of `onDrop` (Index.tsx lines 41-47): the random
identifier and the object URL are environment-supplied parameters; the
preview is assigned exactly when the declared MIME type begins with
"image/" (`file.type.startsWith("image/")`). -/
def intakeRecord (id : String) (objectURL : String) (f : File) : ImageFile :=
  { id := id
    file := f
    name := f.name
    size := sizeLabel f.size
    preview := if jsStartsWith f.type "image/" then some objectURL else none }

/-- `onDrop` (Index.tsx lines 40-49): maps the accepted files to intake
records and appends them after the existing collection
(`setImages(prev => [...prev, ...newImages])`).  `ids i` and `urls i`
are the random identifier and object URL the environment produces for
the i-th file of the batch. -/
def onDrop (ids : Nat → String) (urls : Nat → String) (s : AppState)
    (acceptedFiles : List File) : AppState :=
  let newImages := acceptedFiles.enum.map fun p => intakeRecord (ids p.1) (urls p.1) p.2
  { s with images := s.images ++ newImages }

/-- `removeImage` (Index.tsx lines 57-59):
`setImages(prev => prev.filter(img => img.id !== id))`. -/
def removeImage (id : String) (s : AppState) : AppState :=
  { s with images := s.images.filter fun img => img.id ≠ id }

/-- `clearImages` (Index.tsx lines 61-64): `setImages([])` and
`setResults([])`. -/
def clearImages (s : AppState) : AppState :=
  { s with images := [], results := [] }

/-- The `includeDescription` checkbox handler
(`onCheckedChange={setIncludeDescription}`, Index.tsx line 195). -/
def setIncludeDescription (b : Bool) (s : AppState) : AppState :=
  { s with includeDescription := b }

/-- The result synthesized for one image in the analysis loop
(Index.tsx lines 88-94): filename is the image display name, title and
keywords are template strings, description is present exactly when
`includeDescription` holds, status is always `completed`. -/
def synthesizeResult (includeDescription : Bool) (image : ImageFile) : AnalysisResult :=
  { filename := image.name
    title := "SEO заголовок для " ++ image.name
    description :=
      if includeDescription then some ("Детальное описание изображения " ++ image.name)
      else none
    keywords := "ключевое слово1, ключевое слово2, ключевое слово3"
    status := Status.completed }

/-- `analyzeImages` run to completion (Index.tsx lines 66-102).  The
guards are checked in source order: first the trimmed API key
(`!apiKey.trim()` alerts and returns), then the empty collection
(`images.length === 0` alerts and returns); on either failure no state
hook is written.  Otherwise the loop pushes one synthesized result per
image in collection order (the intermediate progress and isProcessing
writes are superseded by the final `setResults(newResults)`,
`setProgress(100)`, `setIsProcessing(false)`). -/
def analyzeImages (s : AppState) : AppState × Option Alert :=
  if jsTrim s.apiKey = "" then
    (s, some Alert.missingCredential)
  else if s.images.length = 0 then
    (s, some Alert.emptyInput)
  else
    ({ s with
        results := s.images.map (synthesizeResult s.includeDescription)
        progress := 100
        isProcessing := false }, none)

/-- Field serialization of the CSV export (Index.tsx line 117):
every value is wrapped in double quotes unconditionally, with no
escaping of embedded quotes or delimiters. -/
def quoteField (val : String) : String :=
  "\"" ++ val ++ "\""

/-- The CSV header labels (Index.tsx lines 107-109): note the header
label "descriptors" while the data key is `description`. -/
def csvHeaders (includeDescription : Bool) : List String :=
  if includeDescription then ["filename", "title", "descriptors", "keywords"]
  else ["filename", "title", "keywords"]

/-- The field values of one data row (Index.tsx lines 114-116): with
the description column, a missing description is replaced by the empty
string (`row.description || ""`). -/
def csvRowValues (includeDescription : Bool) (row : AnalysisResult) : List String :=
  if includeDescription then
    [row.filename, row.title, row.description.getD "", row.keywords]
  else
    [row.filename, row.title, row.keywords]

/-- One serialized data row (Index.tsx line 117):
`values.map(val => mkquoted(val)).join(",")`. -/
def csvRow (includeDescription : Bool) (row : AnalysisResult) : String :=
  String.intercalate "," ((csvRowValues includeDescription row).map quoteField)

/-- The downloadable artifact built by `exportToCSV` (Index.tsx lines
121-126): the blob content, the download filename and the MIME type. -/
structure CSVArtifact where
  content : String
  filename : String
  mime : String
deriving DecidableEq

/-- `exportToCSV` (Index.tsx lines 104-128): a no-op returning no
artifact when the result list is empty; otherwise the content is the
header line followed by one quoted row per result, lines joined with
a newline, downloaded as image_analysis_results.csv with MIME text/csv.
It reads the current `includeDescription` state of the page. -/
def exportToCSV (s : AppState) : Option CSVArtifact :=
  if s.results.length = 0 then none
  else
    let csvContent := String.intercalate "\n"
      (String.intercalate "," (csvHeaders s.includeDescription) ::
        s.results.map (csvRow s.includeDescription))
    some { content := csvContent
           filename := "image_analysis_results.csv"
           mime := "text/csv" }

/-- Concrete fixture: the 2 MiB image file of the end-to-end scenario. -/
def wFile : File :=
  { name := "a.jpg", size := 2097152, type := "image/jpeg" }

/-- Concrete fixture: a non-image file. -/
def wTxtFile : File :=
  { name := "b.txt", size := 1024, type := "text/plain" }

/-- Concrete fixture: the intake record for `wFile`. -/
def wImage : ImageFile :=
  intakeRecord "id0" "blob:0" wFile

/-- Concrete state with the given API key, collection, description flag
and results; the remaining hooks at their initial values. -/
def mkState (key : String) (imgs : List ImageFile) (inc : Bool)
    (res : List AnalysisResult) : AppState :=
  { apiKey := key
    model := "gpt-4o-mini"
    images := imgs
    useFilename := false
    includeDescription := inc
    results := res
    isProcessing := false
    progress := 0
    googleSheetsUrl := "" }

/-- The state reached by running analysis with the description flag
enabled and then unchecking the description checkbox before exporting. -/
def toggleState : AppState :=
  setIncludeDescription false (analyzeImages (mkState "sk-test" [wImage] true [])).1

/-- Concrete id supply for a drop batch. -/
def wIds (i : Nat) : String := "id" ++ toString i

/-- Concrete object-URL supply for a drop batch. -/
def wUrls (i : Nat) : String := "blob:" ++ toString i

example : sizeLabel 2097152 = "2.00 MB" := by decide

example : jsTrim "sk-test" ≠ "" := by decide

example : jsTrim "   " = "" := by decide

example : jsStartsWith "image/jpeg" "image/" = true := by decide

example : jsStartsWith "text/plain" "image/" = false := by decide

/-- C3: starting analysis with an API key that is empty or consists only
of whitespace (trimmed key empty) returns the whole state unchanged —
in particular the result list, the collection, progress and
isProcessing — and raises the MissingCredential alert. -/
theorem analyzeImages_missingCredential (s : AppState) (h : jsTrim s.apiKey = "") :
    (analyzeImages s).1 = s ∧ (analyzeImages s).2 = some Alert.missingCredential := by
  simp [analyzeImages, h]

/-- Witness for C3 at a whitespace-only API key. -/
theorem analyzeImages_missingCredential_witness :
    (analyzeImages (mkState "   " [wImage] false [])).1 = mkState "   " [wImage] false [] ∧
    (analyzeImages (mkState "   " [wImage] false [])).2 = some Alert.missingCredential :=
  analyzeImages_missingCredential (mkState "   " [wImage] false []) (by decide)

/-- C4 counterexample: in the state with an empty collection AND an
empty API key, starting analysis raises MissingCredential, not
EmptyInput — the API-key guard runs first, so the claim "regardless of
the other configuration values" fails at this input. -/
theorem analyzeImages_emptyInput_counterexample :
    (mkState "" [] false []).images = [] ∧
    (analyzeImages (mkState "" [] false [])).2 = some Alert.missingCredential ∧
    (analyzeImages (mkState "" [] false [])).2 ≠ some Alert.emptyInput := by
  refine ⟨rfl, rfl, ?_⟩
  decide

/-- C4 amended: in every state whose collection is empty and whose
trimmed API key is non-empty, starting analysis raises the EmptyInput
alert, leaves the whole state unchanged and in particular never sets
isProcessing. -/
theorem analyzeImages_emptyInput (s : AppState) (hk : jsTrim s.apiKey ≠ "")
    (h : s.images = []) :
    (analyzeImages s).1 = s ∧ (analyzeImages s).2 = some Alert.emptyInput ∧
    (analyzeImages s).1.isProcessing = s.isProcessing := by
  simp [analyzeImages, hk, h]

/-- Witness for (amended) C4 at a non-empty API key and empty collection. -/
theorem analyzeImages_emptyInput_witness :
    (analyzeImages (mkState "sk-test" [] false [])).1 = mkState "sk-test" [] false [] ∧
    (analyzeImages (mkState "sk-test" [] false [])).2 = some Alert.emptyInput ∧
    (analyzeImages (mkState "sk-test" [] false [])).1.isProcessing
      = (mkState "sk-test" [] false []).isProcessing :=
  analyzeImages_emptyInput (mkState "sk-test" [] false []) (by decide) rfl

/-- C7: CSV export with an empty result list is a no-op: it produces no
artifact (and, being a pure function of the state, raises no exception
and changes no state). -/
theorem exportToCSV_empty (s : AppState) (h : s.results = []) :
    exportToCSV s = none := by
  simp [exportToCSV, h]

/-- Witness for C7 at the empty result list. -/
theorem exportToCSV_empty_witness :
    exportToCSV (mkState "sk-test" [wImage] true []) = none :=
  exportToCSV_empty (mkState "sk-test" [wImage] true []) rfl

/-- C9: clearing always yields an empty image collection and an empty
result list, regardless of the prior state. -/
theorem clearImages_clears (s : AppState) :
    (clearImages s).images = [] ∧ (clearImages s).results = [] :=
  ⟨rfl, rfl⟩

/-- C10: in the 4-column layout, a result whose description is absent is
serialized with the empty string in the description column, so the data
row has exactly as many fields as the header row. -/
theorem csvRowValues_missing_description (r : AnalysisResult) (h : r.description = none) :
    csvRowValues true r = [r.filename, r.title, "", r.keywords] ∧
    (csvRowValues true r).length = (csvHeaders true).length := by
  simp [csvRowValues, csvHeaders, h]

/-- Witness for C10 at a result synthesized without a description. -/
theorem csvRowValues_missing_description_witness :
    csvRowValues true (synthesizeResult false wImage)
      = [(synthesizeResult false wImage).filename, (synthesizeResult false wImage).title,
          "", (synthesizeResult false wImage).keywords] ∧
    (csvRowValues true (synthesizeResult false wImage)).length = (csvHeaders true).length :=
  csvRowValues_missing_description (synthesizeResult false wImage) rfl

/-- The synthesized description template is never the empty string. -/
theorem descriptionTemplate_ne_empty (n : String) :
    ("Детальное описание изображения " ++ n) ≠ "" := by
  intro h
  have h2 : ("Детальное описание изображения " ++ n).length = 0 := by
    rw [h]
    decide
  rw [String.length_append] at h2
  have h3 : ("Детальное описание изображения ").length = 31 := by decide
  omega

/-- C1: a run of the analysis workflow whose preconditions hold
(non-empty trimmed API key, non-empty collection) completes with no
alert and replaces the stored result list by exactly one result per
image, in collection order, the i-th result filename being the i-th
image display name; every result of the run has a present, non-empty
description when the description flag is enabled for the run, and no
description when it is disabled. -/
theorem analyzeImages_run (s : AppState) (hk : jsTrim s.apiKey ≠ "")
    (hi : s.images ≠ []) :
    (analyzeImages s).2 = none ∧
    (analyzeImages s).1.results = s.images.map (synthesizeResult s.includeDescription) ∧
    (analyzeImages s).1.results.length = s.images.length ∧
    (∀ i : Nat, ((analyzeImages s).1.results[i]?).map AnalysisResult.filename
        = (s.images[i]?).map ImageFile.name) ∧
    (s.includeDescription = true →
      ∀ r ∈ (analyzeImages s).1.results, ∃ d, r.description = some d ∧ d ≠ "") ∧
    (s.includeDescription = false →
      ∀ r ∈ (analyzeImages s).1.results, r.description = none) := by
  have hlen : ¬ s.images.length = 0 := by
    simpa [List.length_eq_zero] using hi
  have hrun : analyzeImages s
      = ({ s with
            results := s.images.map (synthesizeResult s.includeDescription)
            progress := 100
            isProcessing := false }, none) := by
    unfold analyzeImages
    rw [if_neg hk, if_neg hlen]
  rw [hrun]
  refine ⟨rfl, rfl, by simp, ?_, ?_, ?_⟩
  · intro i
    rw [List.getElem?_map]
    cases s.images[i]? <;> simp [synthesizeResult]
  · intro hinc r hr
    rw [List.mem_map] at hr
    obtain ⟨img, _, rfl⟩ := hr
    exact ⟨"Детальное описание изображения " ++ img.name,
      by simp [synthesizeResult, hinc], descriptionTemplate_ne_empty img.name⟩
  · intro hinc r hr
    rw [List.mem_map] at hr
    obtain ⟨img, _, rfl⟩ := hr
    simp [synthesizeResult, hinc]

/-- Witness for C1: one image, description flag enabled. -/
theorem analyzeImages_run_witness :
    (analyzeImages (mkState "sk-test" [wImage] true [])).2 = none ∧
    (analyzeImages (mkState "sk-test" [wImage] true [])).1.results
      = (mkState "sk-test" [wImage] true []).images.map (synthesizeResult true) ∧
    (analyzeImages (mkState "sk-test" [wImage] true [])).1.results.length
      = (mkState "sk-test" [wImage] true []).images.length ∧
    (∀ i : Nat,
      ((analyzeImages (mkState "sk-test" [wImage] true [])).1.results[i]?).map
          AnalysisResult.filename
        = ((mkState "sk-test" [wImage] true []).images[i]?).map ImageFile.name) ∧
    ((mkState "sk-test" [wImage] true []).includeDescription = true →
      ∀ r ∈ (analyzeImages (mkState "sk-test" [wImage] true [])).1.results,
        ∃ d, r.description = some d ∧ d ≠ "") ∧
    ((mkState "sk-test" [wImage] true []).includeDescription = false →
      ∀ r ∈ (analyzeImages (mkState "sk-test" [wImage] true [])).1.results,
        r.description = none) :=
  analyzeImages_run (mkState "sk-test" [wImage] true []) (by decide) (by decide)

/-- C2 counterexample: run the analysis with the description flag
enabled (the run produces results whose descriptions are all present),
then uncheck the flag before exporting.  The export reads the current
flag, not the flag of the run that produced the results, and emits the
3-column header filename,title,keywords — so the column set is not
determined by the flag of the producing run. -/
theorem exportToCSV_run_flag_counterexample :
    (mkState "sk-test" [wImage] true []).includeDescription = true ∧
    (∀ r ∈ toggleState.results, r.description.isSome = true) ∧
    (exportToCSV toggleState).map CSVArtifact.content
      = some ("filename,title,keywords\n\"a.jpg\",\"SEO заголовок для a.jpg\",\"ключевое слово1, ключевое слово2, ключевое слово3\"") := by
  refine ⟨rfl, by decide, by decide⟩

/-- C2 amended: for every non-empty result list, the CSV column set is
determined by the includeDescription value at export time (which equals
the producing run's value whenever the flag is not toggled in between):
when it is enabled the header line is exactly
filename,title,descriptors,keywords (header label "descriptors", data
key `description`) and every data row is built from 4 field values;
when it is disabled the header line is exactly filename,title,keywords
and every data row is built from 3 field values. -/
theorem exportToCSV_columns (s : AppState) (h : s.results ≠ []) :
    ∃ a, exportToCSV s = some a ∧
      a.content = String.intercalate "\n"
        (String.intercalate "," (csvHeaders s.includeDescription) ::
          s.results.map (csvRow s.includeDescription)) ∧
      (s.includeDescription = true →
        String.intercalate "," (csvHeaders s.includeDescription)
          = "filename,title,descriptors,keywords" ∧
        ∀ r ∈ s.results, (csvRowValues s.includeDescription r).length = 4) ∧
      (s.includeDescription = false →
        String.intercalate "," (csvHeaders s.includeDescription)
          = "filename,title,keywords" ∧
        ∀ r ∈ s.results, (csvRowValues s.includeDescription r).length = 3) := by
  have hlen : ¬ s.results.length = 0 := by
    simpa [List.length_eq_zero] using h
  refine ⟨CSVArtifact.mk
      (String.intercalate "\n"
        (String.intercalate "," (csvHeaders s.includeDescription) ::
          s.results.map (csvRow s.includeDescription)))
      "image_analysis_results.csv" "text/csv", ?_, rfl, ?_, ?_⟩
  · unfold exportToCSV
    rw [if_neg hlen]
  · intro hinc
    rw [hinc]
    exact ⟨by decide, fun r _ => by simp [csvRowValues]⟩
  · intro hinc
    rw [hinc]
    exact ⟨by decide, fun r _ => by simp [csvRowValues]⟩

/-- Witness for (amended) C2 at a one-element result list with the
description flag enabled. -/
theorem exportToCSV_columns_witness :
    ∃ a, exportToCSV (mkState "sk-test" [] true [synthesizeResult true wImage]) = some a ∧
      a.content = String.intercalate "\n"
        (String.intercalate "," (csvHeaders true) ::
          [synthesizeResult true wImage].map (csvRow true)) ∧
      (true = true →
        String.intercalate "," (csvHeaders true)
          = "filename,title,descriptors,keywords" ∧
        ∀ r ∈ [synthesizeResult true wImage], (csvRowValues true r).length = 4) ∧
      (true = false →
        String.intercalate "," (csvHeaders true)
          = "filename,title,keywords" ∧
        ∀ r ∈ [synthesizeResult true wImage], (csvRowValues true r).length = 3) :=
  exportToCSV_columns (mkState "sk-test" [] true [synthesizeResult true wImage]) (by decide)

/-- C5: for every non-empty result list the export wraps every field
value in double quotes with the value embedded verbatim (no escaping of
embedded quotes or delimiters), joins the columns of a row with a comma
and the rows, header included, with a newline, and exposes the output
as a downloadable artifact named image_analysis_results.csv of MIME
type text/csv. -/
theorem exportToCSV_serialization (s : AppState) (h : s.results ≠ []) :
    (∀ v : String, quoteField v = "\"" ++ v ++ "\"") ∧
    ∃ a, exportToCSV s = some a ∧
      a.filename = "image_analysis_results.csv" ∧
      a.mime = "text/csv" ∧
      a.content = String.intercalate "\n"
        (String.intercalate "," (csvHeaders s.includeDescription) ::
          s.results.map (csvRow s.includeDescription)) ∧
      ∀ r ∈ s.results, csvRow s.includeDescription r
        = String.intercalate "," ((csvRowValues s.includeDescription r).map quoteField) := by
  have hlen : ¬ s.results.length = 0 := by
    simpa [List.length_eq_zero] using h
  refine ⟨fun v => rfl, CSVArtifact.mk
      (String.intercalate "\n"
        (String.intercalate "," (csvHeaders s.includeDescription) ::
          s.results.map (csvRow s.includeDescription)))
      "image_analysis_results.csv" "text/csv", ?_, rfl, rfl, rfl, fun r _ => rfl⟩
  unfold exportToCSV
  rw [if_neg hlen]

/-- Concrete fixture: a result with a quote and commas embedded in its
field values. -/
def wTrickyResult : AnalysisResult :=
  { filename := "a\"b,c.jpg"
    title := "t"
    description := none
    keywords := "k1, k2"
    status := Status.completed }

/-- Witness for C5 at a one-element result list whose fields embed a
quote character and commas. -/
theorem exportToCSV_serialization_witness :
    (∀ v : String, quoteField v = "\"" ++ v ++ "\"") ∧
    ∃ a, exportToCSV (mkState "sk-test" [] false [wTrickyResult]) = some a ∧
      a.filename = "image_analysis_results.csv" ∧
      a.mime = "text/csv" ∧
      a.content = String.intercalate "\n"
        (String.intercalate "," (csvHeaders false) ::
          [wTrickyResult].map (csvRow false)) ∧
      ∀ r ∈ [wTrickyResult], csvRow false r
        = String.intercalate "," ((csvRowValues false r).map quoteField) :=
  exportToCSV_serialization (mkState "sk-test" [] false [wTrickyResult]) (by decide)

/-- C6: intake appends one record per accepted file; a record carries a
preview exactly when the declared MIME type of its file begins with
"image/", and its size label is the byte size divided by 1024 twice,
rounded to two decimals with the " MB" suffix; in particular a
2097152-byte file is labelled "2.00 MB", an "image/jpeg" file gets a
preview and a "text/plain" file gets none. -/
theorem intake_preview_and_sizeLabel (ids urls : Nat → String) (s : AppState)
    (files : List File) :
    ((onDrop ids urls s files).images.drop s.images.length
        = files.enum.map fun p => intakeRecord (ids p.1) (urls p.1) p.2) ∧
    (∀ id url f, ((intakeRecord id url f).preview.isSome = jsStartsWith f.type "image/") ∧
      (intakeRecord id url f).size = sizeLabel f.size) ∧
    sizeLabel 2097152 = "2.00 MB" ∧
    (intakeRecord "id0" "blob:0" wFile).preview.isSome = true ∧
    (intakeRecord "id1" "blob:1" wTxtFile).preview = none := by
  refine ⟨?_, ?_, by decide, by decide, by decide⟩
  · unfold onDrop
    exact List.drop_left s.images _
  · intro id url f
    refine ⟨?_, rfl⟩
    by_cases hb : jsStartsWith f.type "image/" <;> simp [intakeRecord, hb]

/-- C8: appending a non-empty batch to the collection grows it by
exactly the batch size, keeps the previously stored records in place
and in order, and puts the new records after them in batch order. -/
theorem onDrop_append (ids urls : Nat → String) (s : AppState) (files : List File)
    (h : files ≠ []) :
    (onDrop ids urls s files).images.length = s.images.length + files.length ∧
    (onDrop ids urls s files).images.take s.images.length = s.images ∧
    (onDrop ids urls s files).images.drop s.images.length
      = files.enum.map fun p => intakeRecord (ids p.1) (urls p.1) p.2 := by
  unfold onDrop
  refine ⟨?_, List.take_left s.images _, List.drop_left s.images _⟩
  simp [List.length_append, List.length_map, List.enum_length]

/-- Witness for C8 at a two-file batch dropped on a one-image
collection. -/
theorem onDrop_append_witness :
    (onDrop wIds wUrls (mkState "" [wImage] false []) [wFile, wTxtFile]).images.length
      = (mkState "" [wImage] false []).images.length + [wFile, wTxtFile].length ∧
    (onDrop wIds wUrls (mkState "" [wImage] false []) [wFile, wTxtFile]).images.take
        (mkState "" [wImage] false []).images.length
      = (mkState "" [wImage] false []).images ∧
    (onDrop wIds wUrls (mkState "" [wImage] false []) [wFile, wTxtFile]).images.drop
        (mkState "" [wImage] false []).images.length
      = [wFile, wTxtFile].enum.map fun p => intakeRecord (wIds p.1) (wUrls p.1) p.2 :=
  onDrop_append wIds wUrls (mkState "" [wImage] false []) [wFile, wTxtFile] (by decide)

end ImageApp
